import Mathlib

/-!
Verification of the hardwood performance-testing harness
(`performance-testing/end-to-end/flat_performance_test.py` and
`performance-testing/end-to-end/nested_performance_test.py`).

The two Python scripts are shallowly embedded below.  Modelling conventions:

* PyArrow tables are lists of rows; a nullable column value is an `Option`.
* Python floats are modelled as `ℚ` (exact arithmetic); Python `int(x)`
  truncation toward zero is `ratTrunc`.
* `pc.sum`/`pc.min`/`pc.max` with their default `skip_nulls=True, min_count=1`
  semantics reduce the non-null values and yield `none` ("null", `as_py()`
  returning `None`) when no value contributes.
* The external Columnar Source (`pq.read_table`) is modelled as the identity
  on the in-memory table; each call is counted as one read event.
* Wall-clock durations are inputs (an oracle `dur` indexed by contender and
  run index): the harness itself never produces time, it only records it.
* Python exceptions (`argparse.ArgumentTypeError`, `IndexError`, crashes of
  `print_results` on empty data) are modelled with `Except` / `Option` /
  explicit outcome constructors.
-/

/-! ## PyArrow compute kernels (skip-null reductions) -/

/-- The `pc.sum(col).as_py()` with default `skip_nulls=True, min_count=1`:
sum of the non-null values, `none` when no value contributes. -/
def pcSum {α : Type} [AddCommMonoid α] (col : List (Option α)) : Option α :=
  let vs := col.filterMap id
  if vs.isEmpty then none else some vs.sum

/-- The `pc.min(col).as_py()`: minimum of the non-null values, `none` if none. -/
def pcMin {α : Type} [LinearOrder α] (col : List (Option α)) : Option α :=
  (col.filterMap id).min?

/-- The `pc.max(col).as_py()`: maximum of the non-null values, `none` if none. -/
def pcMax {α : Type} [LinearOrder α] (col : List (Option α)) : Option α :=
  (col.filterMap id).max?

/-- Python `int(q)` on a rational: truncation toward zero. -/
def ratTrunc (q : ℚ) : ℤ := Int.tdiv q.num q.den

/-! ## Python string helpers used by `parse_contenders`

Both scripts contain the identical `parse_contenders` function; it is
embedded once.  `str.strip` / `str.lower` / `str.split(",")` are modelled
character-listwise. -/

/-- Python whitespace recognised by `str.strip()` (ASCII subset). -/
def isPySpace (c : Char) : Bool := c = ' ' || c = '\t' || c = '\n' || c = '\r'

/-- Python `s.strip()`. -/
def pyStrip (s : String) : String :=
  ⟨((s.data.dropWhile isPySpace).reverse.dropWhile isPySpace).reverse⟩

/-- Python `s.lower()` (ASCII). -/
def pyLower (s : String) : String := ⟨s.data.map Char.toLower⟩

/-- Helper for `s.split(",")`: split a character list at commas. -/
def splitCommaAux : List Char → List (List Char)
  | [] => [[]]
  | c :: cs =>
    if c = ',' then [] :: splitCommaAux cs
    else
      match splitCommaAux cs with
      | [] => [[c]]
      | p :: ps => (c :: p) :: ps

/-- Python `s.split(",")`. -/
def pySplitComma (s : String) : List String := (splitCommaAux s.data).map (fun l => ⟨l⟩)

/-! ## Contender registry (`CONTENDERS`) -/

/-- The `CONTENDERS` dict: key ↦ (display name, use_threads). Order matters
(`list(CONTENDERS.keys())`). Identical in both scripts. -/
def CONTENDERS : List (String × String × Bool) :=
  [("single_threaded", "PyArrow (single-threaded)", false),
   ("multi_threaded", "PyArrow (multi-threaded)", true)]

/-- The `list(CONTENDERS.keys())`. -/
def contenderKeys : List String := CONTENDERS.map (fun c => c.1)

/-- The `CONTENDERS[key]` (the `(display_name, use_threads)` pair); dict lookup. -/
def contenderEntry (key : String) : Option (String × Bool) :=
  (CONTENDERS.find? (fun c => c.1 = key)).map (fun c => c.2)

/-- The `CONTENDERS[key][1]`, defaulting (never hit: keys are validated). -/
def contenderThreads (key : String) : Bool := ((contenderEntry key).getD ("", false)).2

/-- The comma-separated, stripped, non-blank names of a `-c` argument:
`[n.strip() for n in value.split(",") if n.strip()]`. -/
def requestedNames (value : String) : List String :=
  ((pySplitComma value).map pyStrip).filter (fun n => n ≠ "")

/-- The `parse_contenders` (identical in both scripts): `None` or `"all"`
(case-insensitive, stripped) selects every registry key; otherwise the
comma-separated names are validated in order against the registry and the
first unknown one raises `argparse.ArgumentTypeError`. -/
def parse_contenders (value : Option String) : Except String (List String) :=
  match value with
  | none => .ok contenderKeys
  | some v =>
    if pyLower (pyStrip v) = "all" then .ok contenderKeys
    else
      let names := requestedNames v
      match names.find? (fun n => !(contenderKeys.contains n)) with
      | some bad => .error ("Unknown contender: " ++ bad)
      | none => .ok names

/-! ## Flat test: data model and `sum_columns` -/

/-- One row of a flat (taxi) parquet file, projected to the three summed
columns; each cell is nullable. -/
structure FlatRow where
  passenger_count : Option ℚ
  trip_distance : Option ℚ
  fare_amount : Option ℚ
deriving DecidableEq

/-- A flat parquet file: its rows (after projection to `COLUMNS`). -/
abbrev FlatFile := List FlatRow

/-- The `COLUMNS` in `flat_performance_test.py`. -/
def COLUMNS : List String := ["passenger_count", "trip_distance", "fare_amount"]

/-- The `pq.read_table(file_path, columns=COLUMNS, use_threads=...)`: the external
Columnar Source, modelled as the identity on the already-projected table. -/
def read_table (file_path : FlatFile) (cols : List String) (use_threads : Bool) : FlatFile :=
  let _ := cols
  let _ := use_threads
  file_path

/-- The accumulator of `sum_columns`: running sums and row count. -/
structure FlatResult where
  passenger_count : ℤ
  trip_distance : ℚ
  fare_amount : ℚ
  row_count : ℕ
deriving DecidableEq

/-- The loop body of `sum_columns`, threading `(accumulator, read count)`:
reads one file, adds its row count, and adds each column's skip-null sum
when it is not `None` (`int(...)` truncation for `passenger_count`). -/
def sum_columns_go (use_threads : Bool) (acc : FlatResult × ℕ) (file_path : FlatFile) :
    FlatResult × ℕ :=
  let table := read_table file_path COLUMNS use_threads
  let r := acc.1
  let r := { r with row_count := r.row_count + table.length }
  let r :=
    match pcSum (table.map (fun row => row.passenger_count)) with
    | none => r
    | some s => { r with passenger_count := r.passenger_count + ratTrunc s }
  let r :=
    match pcSum (table.map (fun row => row.trip_distance)) with
    | none => r
    | some s => { r with trip_distance := r.trip_distance + s }
  let r :=
    match pcSum (table.map (fun row => row.fare_amount)) with
    | none => r
    | some s => { r with fare_amount := r.fare_amount + s }
  (r, acc.2 + 1)

/-- The `sum_columns(files, use_threads)` together with the number of
`pq.read_table` calls it performs. -/
def sum_columnsR (files : List FlatFile) (use_threads : Bool) : FlatResult × ℕ :=
  files.foldl (sum_columns_go use_threads) (⟨0, 0, 0, 0⟩, 0)

/-- The `sum_columns(files, use_threads)`: the returned 4-tuple. -/
def sum_columns (files : List FlatFile) (use_threads : Bool) : FlatResult :=
  (sum_columnsR files use_threads).1

/-! ## Flat test: `print_results` (correctness verification & statistics) -/

/-- One timed run: `(passenger_count, trip_distance, fare_amount, row_count, duration)`. -/
abbrev FlatRun := FlatResult × ℚ

/-- Per-contender duration statistics printed by `print_results`:
all durations, `avg = sum/len`, `min`, `max`, `spread = max - min`.
Python raises (`ZeroDivisionError` / `min([])`) on an empty run list,
modelled by the surrounding `Option`. -/
structure ContStats where
  durations : List ℚ
  avg : ℚ
  minD : ℚ
  maxD : ℚ
  spread : ℚ
deriving DecidableEq

/-- The statistics block computed for one contender's durations. -/
def contStats (ds : List ℚ) : Option ContStats :=
  match ds.min?, ds.max? with
  | some mn, some mx => some ⟨ds, ds.sum / (ds.length : ℚ), mn, mx, mx - mn⟩
  | _, _ => none

/-- The rows of the flat "Correctness Verification" table: for each enabled
contender, its FIRST run's `(passenger_count, trip_distance, fare_amount)`
(`cr = results[contender_key][0]`; `row_count` and `duration` are not
printed).  `none` models the `IndexError` raised when some contender has no
recorded run. -/
def flatVerificationRows (sess : List (String × List FlatRun)) :
    Option (List (String × ℤ × ℚ × ℚ)) :=
  match sess with
  | [] => some []
  | (key, runs) :: rest =>
    match runs with
    | [] => none
    | (cr, _) :: _ =>
      match flatVerificationRows rest with
      | none => none
      | some tl => some ((key, cr.passenger_count, cr.trip_distance, cr.fare_amount) :: tl)

/-- The data computed and printed by the flat `print_results` (environment
banner and fixed text layout omitted as external formatting): the row count
and sums taken from the first contender's first run, the optional
correctness-verification table (only when more than one contender), and the
per-contender performance statistics.  `none` models a crash
(`IndexError` on `results[enabled[0]][0]` / empty duration list). -/
structure FlatReport where
  rowCountShown : ℕ
  sums : ℤ × ℚ × ℚ
  verification : Option (List (String × ℤ × ℚ × ℚ))
  perf : List (String × ContStats)
deriving DecidableEq

/-- Per-contender performance statistics (the loop at the bottom of
`print_results`); `none` when some contender's run list is empty. -/
def flatPerf (sess : List (String × List FlatRun)) : Option (List (String × ContStats)) :=
  match sess with
  | [] => some []
  | (key, runs) :: rest =>
    match contStats (runs.map (fun cr => cr.2)) with
    | none => none
    | some st =>
      match flatPerf rest with
      | none => none
      | some tl => some ((key, st) :: tl)

/-- The `print_results(files, total_bytes, run_count, enabled, results)` in
`flat_performance_test.py`, as the report data it derives from the session
(`sess` lists the contenders in `enabled` order with their runs). -/
def print_results (sess : List (String × List FlatRun)) : Option FlatReport :=
  match sess with
  | [] => none
  | (_, runs0) :: _ =>
    match runs0 with
    | [] => none
    | (first_result, _) :: _ =>
      let verif : Option (Option (List (String × ℤ × ℚ × ℚ))) :=
        if 1 < sess.length then
          match flatVerificationRows sess with
          | none => none
          | some v => some (some v)
        else some none
      match verif with
      | none => none
      | some v =>
        match flatPerf sess with
        | none => none
        | some perf =>
          some { rowCountShown := first_result.row_count
                 sums := (first_result.passenger_count, first_result.trip_distance,
                          first_result.fare_amount)
                 verification := v
                 perf := perf }

/-! ## Flat test: `main` -/

/-- Observable I/O-shaped events of a harness invocation. -/
inductive Event where
  | warmupEv (use_threads : Bool) (fileCount : ℕ)
  | runEv (key : String) (idx : ℕ)
deriving DecidableEq

/-- Whether an event is the warmup invocation. -/
def Event.isWarmup : Event → Bool
  | .warmupEv _ _ => true
  | .runEv _ _ => false

/-- How a `main` invocation ends. -/
inductive FlatOutcome where
  /-- The `parse_contenders` raised `argparse.ArgumentTypeError`. -/
  | configError (msg : String)
  /-- The "No data files found." message and clean early `return`. -/
  | missingData
  /-- Unhandled `IndexError` from `CONTENDERS[enabled[0]]` with no selected contender. -/
  | indexError
  /-- All runs executed; the report data produced by `print_results`. -/
  | completed (report : Option FlatReport)
deriving DecidableEq

/-- The observable result of one flat `main` invocation. -/
structure FlatMain where
  readCalls : ℕ
  events : List Event
  outcome : FlatOutcome
deriving DecidableEq

/-- The timed-runs loop of the flat `main`: for each enabled contender, for
`run_count` iterations, run `sum_columns(files, use_threads)` and record the
result with its wall-clock duration (durations are external inputs `dur`). -/
def flatTimedRuns (enabled : List String) (run_count : ℕ) (files : List FlatFile)
    (dur : ℕ → ℕ → ℚ) : List (String × List FlatRun) :=
  enabled.enum.map (fun ci =>
    (ci.2, (List.range run_count).map (fun ri =>
      ((sum_columnsR files (contenderThreads ci.2)).1, dur ci.1 ri))))

/-- Read calls performed by the timed-runs loop. -/
def flatTimedReads (enabled : List String) (run_count : ℕ) (files : List FlatFile) : ℕ :=
  (enabled.flatMap (fun key =>
    (List.range run_count).map (fun _ => (sum_columnsR files (contenderThreads key)).2))).sum

/-- Run events of the timed-runs loop, in execution order. -/
def flatRunEvents (enabled : List String) (run_count : ℕ) : List Event :=
  enabled.flatMap (fun key => (List.range run_count).map (fun ri => Event.runEv key ri))

/-- The `main()` of `flat_performance_test.py`: parse/validate contenders, check
for data files, warm up with the first contender's flag on the first
`min(len(files), 12)` files (result discarded), run the timed loop, and
produce the report. -/
def mainFlat (contendersArg : String) (run_count : ℕ) (files : List FlatFile)
    (dur : ℕ → ℕ → ℚ) : FlatMain :=
  match parse_contenders (some contendersArg) with
  | .error e => { readCalls := 0, events := [], outcome := .configError e }
  | .ok enabled =>
    if files = [] then { readCalls := 0, events := [], outcome := .missingData }
    else
      match enabled with
      | [] => { readCalls := 0, events := [], outcome := .indexError }
      | e0 :: _ =>
        let use_threads := contenderThreads e0
        let warmup_files := files.take (min files.length 12)
        let warmupReads := (sum_columnsR warmup_files use_threads).2
        let sess := flatTimedRuns enabled run_count files dur
        { readCalls := warmupReads + flatTimedReads enabled run_count files
          events := Event.warmupEv use_threads warmup_files.length ::
            flatRunEvents enabled run_count
          outcome := .completed (print_results sess) }

/-- The `main()` of `flat_performance_test.py` with the warmup call removed and
nothing else changed (for the warmup-is-discarded property). -/
def mainFlatNoWarmup (contendersArg : String) (run_count : ℕ) (files : List FlatFile)
    (dur : ℕ → ℕ → ℚ) : FlatMain :=
  match parse_contenders (some contendersArg) with
  | .error e => { readCalls := 0, events := [], outcome := .configError e }
  | .ok enabled =>
    if files = [] then { readCalls := 0, events := [], outcome := .missingData }
    else
      match enabled with
      | [] => { readCalls := 0, events := [], outcome := .indexError }
      | _ :: _ =>
        let sess := flatTimedRuns enabled run_count files dur
        { readCalls := flatTimedReads enabled run_count files
          events := flatRunEvents enabled run_count
          outcome := .completed (print_results sess) }

/-! ## Nested test: data model -/

/-- The `names` struct column: a nullable `common` map (`map<string,string>`,
kept as its entry list) and a nullable `primary` string. -/
structure NamesStruct where
  common : Option (List (String × String))
  primary : Option String
deriving DecidableEq

/-- One row of the Overture places table, restricted to the fields
`compute_aggregates` touches; every top-level column is nullable. -/
structure NestedRow where
  version : Option ℤ
  confidence : Option ℚ
  bbox : Option (ℚ × ℚ)
  websites : Option (List String)
  sources : Option (List Unit)
  addresses : Option (List Unit)
  names : Option NamesStruct
deriving DecidableEq

/-- The nested parquet table (a single file). -/
abbrev NestedTable := List NestedRow

/-- The `pq.read_table(file_path, use_threads=...)` for the nested test. -/
def read_table_nested (file_path : NestedTable) (use_threads : Bool) : NestedTable :=
  let _ := use_threads
  file_path

/-- The `pc.list_value_length(col)`: per-row list length, null rows stay null. -/
def list_value_length {α : Type} (col : List (Option (List α))) : List (Option ℤ) :=
  col.map (Option.map (fun l => (l.length : ℤ)))

/-- The `pc.utf8_length(col)`: per-row string length, null rows stay null. -/
def utf8_length (col : List (Option String)) : List (Option ℤ) :=
  col.map (Option.map (fun s => (s.length : ℤ)))

/-! ### `_map_value_length`: per-row map size from the offset buffer

A map chunk is modelled by its logical rows (`Option` of entry list).  Its
Arrow offset buffer — the layout the external reader produces, in which a
null row occupies an empty slot — is `mapOffsets`: partial sums of the
per-row entry counts, starting at 0, with `n+1` entries for `n` rows. -/

/-- The Arrow offsets buffer of a map chunk (null rows hold empty slots). -/
def mapOffsets {α : Type} (rows : List (Option (List α))) : List ℤ :=
  rows.scanl (fun acc r => acc + ((r.getD []).length : ℤ)) 0

/-- The `chunk.null_count`. -/
def nullCount {α : Type} (rows : List (Option α)) : ℕ := rows.countP (fun r => r.isNone)

/-- The per-chunk body of `_map_value_length`: `starts = offsets.slice(0, n)`,
`ends = offsets.slice(1)`, `sizes = pc.subtract(ends, starts)`, and when the
chunk has nulls, `pc.if_else(chunk.is_valid(), sizes, None)`. -/
def map_value_length_chunk {α : Type} (rows : List (Option (List α))) : List (Option ℤ) :=
  let n := rows.length
  let offs := mapOffsets rows
  let starts := offs.take n
  let ends := offs.drop 1
  let sizes := List.zipWith (fun e s => e - s) ends starts
  if 0 < nullCount rows then
    List.zipWith (fun r sz => if r.isSome then some sz else none) rows sizes
  else
    sizes.map some

/-- The `_map_value_length(map_column)` in `nested_performance_test.py`: compute
per-row entry counts chunk by chunk from the offsets and reassemble
(`pa.chunked_array`, modelled as concatenation). -/
def map_value_length {α : Type} (chunks : List (List (Option (List α)))) : List (Option ℤ) :=
  (chunks.map map_value_length_chunk).flatten

/-! ## Nested test: `compute_aggregates` -/

/-- The aggregate record returned by `compute_aggregates` (Python dict with
fixed keys).  Extrema are `Option` (null when no value contributes); the
count/length aggregates apply the `... or 0` default. -/
structure NestedResult where
  row_count : ℕ
  min_version : Option ℤ
  max_version : Option ℤ
  min_confidence : Option ℚ
  max_confidence : Option ℚ
  min_bbox_xmin : Option ℚ
  max_bbox_xmax : Option ℚ
  total_website_count : ℤ
  max_website_count : ℤ
  total_source_count : ℤ
  max_source_count : ℤ
  total_address_count : ℤ
  max_address_count : ℤ
  total_name_entries : ℤ
  max_name_entries : ℤ
  max_primary_name_length : ℤ
deriving DecidableEq

/-- The `compute_aggregates(file_path, use_threads)`: read the table and reduce
each (possibly nested) column.  `pc.struct_field` on a null struct yields a
null child (`Option.bind`); `x.as_py() or 0` is `Option.getD 0`; the map
column goes through `_map_value_length` as a single chunk. -/
def compute_aggregates (file_path : NestedTable) (use_threads : Bool) : NestedResult :=
  let table := read_table_nested file_path use_threads
  let version := table.map (fun row => row.version)
  let confidence := table.map (fun row => row.confidence)
  let bbox_xmin := table.map (fun row => row.bbox.map (fun b => b.1))
  let bbox_xmax := table.map (fun row => row.bbox.map (fun b => b.2))
  let website_sizes := list_value_length (table.map (fun row => row.websites))
  let source_sizes := list_value_length (table.map (fun row => row.sources))
  let address_sizes := list_value_length (table.map (fun row => row.addresses))
  let names := table.map (fun row => row.names)
  let names_common := names.map (fun n => n.bind (fun s => s.common))
  let common_sizes := map_value_length [names_common]
  let names_primary := names.map (fun n => n.bind (fun s => s.primary))
  let primary_lengths := utf8_length names_primary
  { row_count := table.length
    min_version := pcMin version
    max_version := pcMax version
    min_confidence := pcMin confidence
    max_confidence := pcMax confidence
    min_bbox_xmin := pcMin bbox_xmin
    max_bbox_xmax := pcMax bbox_xmax
    total_website_count := (pcSum website_sizes).getD 0
    max_website_count := (pcMax website_sizes).getD 0
    total_source_count := (pcSum source_sizes).getD 0
    max_source_count := (pcMax source_sizes).getD 0
    total_address_count := (pcSum address_sizes).getD 0
    max_address_count := (pcMax address_sizes).getD 0
    total_name_entries := (pcSum common_sizes).getD 0
    max_name_entries := (pcMax common_sizes).getD 0
    max_primary_name_length := (pcMax primary_lengths).getD 0 }

/-! ## Nested test: `print_results` and `main` -/

/-- One timed nested run: `(result, duration)`. -/
abbrev NestedRun := NestedResult × ℚ

/-- One row of the nested "Correctness Verification" table: the six values
printed per contender from its FIRST run (`cr = results[contender_key][0][0]`).
The other ten `NestedResult` fields are not displayed. -/
structure NestedVerifyRow where
  key : String
  min_version : Option ℤ
  max_version : Option ℤ
  row_count : ℕ
  total_website_count : ℤ
  total_source_count : ℤ
  total_address_count : ℤ
deriving DecidableEq

/-- The six displayed fields of a nested first-run result. -/
def nestedVerifyOf (key : String) (cr : NestedResult) : NestedVerifyRow :=
  ⟨key, cr.min_version, cr.max_version, cr.row_count,
   cr.total_website_count, cr.total_source_count, cr.total_address_count⟩

/-- The rows of the nested correctness-verification table; `none` models the
`IndexError` when a contender has no recorded run. -/
def nestedVerificationRows (sess : List (String × List NestedRun)) :
    Option (List NestedVerifyRow) :=
  match sess with
  | [] => some []
  | (key, runs) :: rest =>
    match runs with
    | [] => none
    | (cr, _) :: _ =>
      match nestedVerificationRows rest with
      | none => none
      | some tl => some (nestedVerifyOf key cr :: tl)

/-- The data computed and printed by the nested `print_results`. -/
structure NestedReport where
  rowCountShown : ℕ
  aggregates : NestedResult
  verification : Option (List NestedVerifyRow)
  perf : List (String × ContStats)
deriving DecidableEq

/-- Per-contender performance statistics of the nested `print_results`. -/
def nestedPerf (sess : List (String × List NestedRun)) : Option (List (String × ContStats)) :=
  match sess with
  | [] => some []
  | (key, runs) :: rest =>
    match contStats (runs.map (fun cr => cr.2)) with
    | none => none
    | some st =>
      match nestedPerf rest with
      | none => none
      | some tl => some ((key, st) :: tl)

/-- The `print_results(file_size, run_count, enabled, results)` in
`nested_performance_test.py`, as the report data it derives. -/
def print_results_nested (sess : List (String × List NestedRun)) : Option NestedReport :=
  match sess with
  | [] => none
  | (_, runs0) :: _ =>
    match runs0 with
    | [] => none
    | (first_result, _) :: _ =>
      let verif : Option (Option (List NestedVerifyRow)) :=
        if 1 < sess.length then
          match nestedVerificationRows sess with
          | none => none
          | some v => some (some v)
        else some none
      match verif with
      | none => none
      | some v =>
        match nestedPerf sess with
        | none => none
        | some perf =>
          some { rowCountShown := first_result.row_count
                 aggregates := first_result
                 verification := v
                 perf := perf }

/-- How a nested `main` invocation ends. -/
inductive NestedOutcome where
  /-- The `parse_contenders` raised `argparse.ArgumentTypeError`. -/
  | configError (msg : String)
  /-- The "Data file not found" message and clean early `return`. -/
  | missingData
  /-- Unhandled `IndexError` from `CONTENDERS[enabled[0]]` with no selected contender. -/
  | indexError
  /-- All runs executed; the report data produced by `print_results`. -/
  | completed (report : Option NestedReport)
deriving DecidableEq

/-- The observable result of one nested `main` invocation. -/
structure NestedMain where
  readCalls : ℕ
  events : List Event
  outcome : NestedOutcome
deriving DecidableEq

/-- The timed-runs loop of the nested `main`. -/
def nestedTimedRuns (enabled : List String) (run_count : ℕ) (tbl : NestedTable)
    (dur : ℕ → ℕ → ℚ) : List (String × List NestedRun) :=
  enabled.enum.map (fun ci =>
    (ci.2, (List.range run_count).map (fun ri =>
      (compute_aggregates tbl (contenderThreads ci.2), dur ci.1 ri))))

/-- The `main()` of `nested_performance_test.py`: parse/validate contenders, check
that the data file exists (`dataFile = none` models an absent fixture), warm
up on the full file with the first contender's flag (result discarded), then
run the timed loop.  Each `compute_aggregates` call performs one read. -/
def mainNested (contendersArg : String) (run_count : ℕ) (dataFile : Option NestedTable)
    (dur : ℕ → ℕ → ℚ) : NestedMain :=
  match parse_contenders (some contendersArg) with
  | .error e => { readCalls := 0, events := [], outcome := .configError e }
  | .ok enabled =>
    match dataFile with
    | none => { readCalls := 0, events := [], outcome := .missingData }
    | some tbl =>
      match enabled with
      | [] => { readCalls := 0, events := [], outcome := .indexError }
      | e0 :: _ =>
        let use_threads := contenderThreads e0
        let _warmup := compute_aggregates tbl use_threads
        let sess := nestedTimedRuns enabled run_count tbl dur
        { readCalls := 1 + enabled.length * run_count
          events := Event.warmupEv use_threads 1 :: flatRunEvents enabled run_count
          outcome := .completed (print_results_nested sess) }

/-- The `main()` of `nested_performance_test.py` with the warmup call removed and
nothing else changed. -/
def mainNestedNoWarmup (contendersArg : String) (run_count : ℕ) (dataFile : Option NestedTable)
    (dur : ℕ → ℕ → ℚ) : NestedMain :=
  match parse_contenders (some contendersArg) with
  | .error e => { readCalls := 0, events := [], outcome := .configError e }
  | .ok enabled =>
    match dataFile with
    | none => { readCalls := 0, events := [], outcome := .missingData }
    | some tbl =>
      match enabled with
      | [] => { readCalls := 0, events := [], outcome := .indexError }
      | _ :: _ =>
        let sess := nestedTimedRuns enabled run_count tbl dur
        { readCalls := enabled.length * run_count
          events := flatRunEvents enabled run_count
          outcome := .completed (print_results_nested sess) }

/-! ## Derived/specification-side definitions used in theorem statements -/

/-- Component-wise addition of flat results. -/
def addFR (a b : FlatResult) : FlatResult :=
  ⟨a.passenger_count + b.passenger_count, a.trip_distance + b.trip_distance,
   a.fare_amount + b.fare_amount, a.row_count + b.row_count⟩

/-- The contribution of a single file to `sum_columns`: per-column skip-null
sums (`none` contributing 0), with `int(...)` truncation applied to the
`passenger_count` sum of this file, plus the file's row count. -/
def fileDelta (file : FlatFile) : FlatResult :=
  ⟨(pcSum (file.map (fun row => row.passenger_count))).elim 0 ratTrunc,
   (pcSum (file.map (fun row => row.trip_distance))).getD 0,
   (pcSum (file.map (fun row => row.fare_amount))).getD 0,
   file.length⟩

/-- Sum of the per-file contributions, left-to-right. -/
def deltaFold (files : List FlatFile) : FlatResult :=
  files.foldr (fun f acc => addFR (fileDelta f) acc) ⟨0, 0, 0, 0⟩

/-- A nested row with every nullable column null. -/
def nullNestedRow : NestedRow := ⟨none, none, none, none, none, none, none⟩

/-- Scenario dataset for the websites aggregate: one row with a null
`websites` list, one row with a 3-entry `websites` list. -/
def websitesScenario : NestedTable :=
  [nullNestedRow, { nullNestedRow with websites := some ["a", "b", "c"] }]

/-- Flat end-to-end scenario 1: one file with rows
`(1, 2.0, 10.0)` and `(2, 3.0, 15.0)`. -/
def scenarioFlatFile : FlatFile :=
  [⟨some 1, some 2, some 10⟩, ⟨some 2, some 3, some 15⟩]

/-- Two one-row files whose `passenger_count` column sums to 1/2 each
(fractional per-file sums, integral overall sum). -/
def halfFiles : List FlatFile :=
  [[⟨some (1/2), none, none⟩], [⟨some (1/2), none, none⟩]]

/-- A flat benchmark session of two contenders whose first runs agree. -/
def sessEqFlat : List (String × List FlatRun) :=
  [("single_threaded", [(⟨3, 5, 25, 2⟩, 1)]),
   ("multi_threaded", [(⟨3, 5, 25, 2⟩, 1)])]

/-- The same session except that the second contender's first-run
`row_count` differs (3rd vs 4th field of `FlatResult`): a field-by-field
mismatch between the contenders' first runs. -/
def sessNeqFlat : List (String × List FlatRun) :=
  [("single_threaded", [(⟨3, 5, 25, 2⟩, 1)]),
   ("multi_threaded", [(⟨3, 5, 25, 99⟩, 1)])]

/-- The report the flat `print_results` derives from `sessEqFlat`. -/
def repEqFlat : FlatReport := (print_results sessEqFlat).getD ⟨0, (0, 0, 0), none, []⟩

/-- An all-defaults nested aggregate record (used as a concrete run value). -/
def nestedDefaultResult : NestedResult :=
  ⟨0, none, none, none, none, none, none, 0, 0, 0, 0, 0, 0, 0, 0, 0⟩

/-- A nested benchmark session of two contenders with identical first runs. -/
def sessEqNested : List (String × List NestedRun) :=
  [("single_threaded", [(nestedDefaultResult, 1)]),
   ("multi_threaded", [(nestedDefaultResult, 1)])]

/-- The report the nested `print_results` derives from `sessEqNested`. -/
def repEqNested : NestedReport :=
  (print_results_nested sessEqNested).getD ⟨0, nestedDefaultResult, none, []⟩

/-! ## Helper lemmas -/

theorem addFR_assoc (a b c : FlatResult) : addFR (addFR a b) c = addFR a (addFR b c) := by
  simp [addFR, add_assoc]

theorem addFR_zero_left (a : FlatResult) : addFR ⟨0, 0, 0, 0⟩ a = a := by
  simp [addFR]

theorem sum_columns_go_eq (u : Bool) (r : FlatResult) (k : ℕ) (file : FlatFile) :
    sum_columns_go u (r, k) file = (addFR r (fileDelta file), k + 1) := by
  unfold sum_columns_go read_table fileDelta addFR
  cases hp : pcSum (file.map (fun row => row.passenger_count)) <;>
    cases ht : pcSum (file.map (fun row => row.trip_distance)) <;>
      cases hf : pcSum (file.map (fun row => row.fare_amount)) <;>
        simp [hp, ht, hf]

theorem foldl_sum_columns_go (u : Bool) (files : List FlatFile) (r : FlatResult) (k : ℕ) :
    files.foldl (sum_columns_go u) (r, k) = (addFR r (deltaFold files), k + files.length) := by
  induction files generalizing r k with
  | nil => simp [deltaFold, addFR]
  | cons f fs ih =>
    rw [List.foldl_cons, sum_columns_go_eq, ih]
    have hd : deltaFold (f :: fs) = addFR (fileDelta f) (deltaFold fs) := rfl
    rw [hd, ← addFR_assoc]
    simp [Prod.mk.injEq]
    omega

theorem sum_columnsR_eq (files : List FlatFile) (u : Bool) :
    sum_columnsR files u = (deltaFold files, files.length) := by
  rw [sum_columnsR, foldl_sum_columns_go, addFR_zero_left, Nat.zero_add]

theorem sum_columns_eq (files : List FlatFile) (u : Bool) :
    sum_columns files u = deltaFold files := by
  rw [sum_columns, sum_columnsR_eq]

theorem deltaFold_append (f1 f2 : List FlatFile) :
    deltaFold (f1 ++ f2) = addFR (deltaFold f1) (deltaFold f2) := by
  induction f1 with
  | nil => simp [deltaFold, addFR_zero_left]
  | cons f fs ih =>
    simp only [deltaFold, List.foldr_append, List.foldr_cons] at *
    rw [ih, addFR_assoc]

theorem deltaFold_components (files : List FlatFile) :
    deltaFold files =
      ⟨(files.map (fun f => (pcSum (f.map (fun row => row.passenger_count))).elim 0 ratTrunc)).sum,
       (files.map (fun f => (pcSum (f.map (fun row => row.trip_distance))).getD 0)).sum,
       (files.map (fun f => (pcSum (f.map (fun row => row.fare_amount))).getD 0)).sum,
       (files.map (fun f => f.length)).sum⟩ := by
  induction files with
  | nil => simp [deltaFold]
  | cons f fs ih =>
    simp only [deltaFold, List.foldr_cons] at *
    rw [ih]
    simp [addFR, fileDelta]

theorem pcSum_getD_zero {α : Type} [AddCommMonoid α] (col : List (Option α)) :
    (pcSum col).getD 0 = (col.filterMap id).sum := by
  unfold pcSum
  by_cases h : (col.filterMap id).isEmpty
  · simp [h, List.isEmpty_iff.mp h]
  · simp [h]

theorem pcMax_getD {α : Type} [LinearOrder α] (col : List (Option α)) (d : α) :
    (pcMax col).getD d = ((col.filterMap id).max?).getD d := rfl

theorem filterMap_id_map_optionMap {α β γ : Type} (g : α → Option β) (f : β → γ)
    (rows : List α) :
    ((rows.map (fun r => (g r).map f)).filterMap id) = (rows.filterMap g).map f := by
  induction rows with
  | nil => simp
  | cons r rs ih => cases h : g r <;> simp [h, ih]

theorem scanl_sizes {α : Type} (rows : List (Option (List α))) (b : ℤ) :
    List.zipWith (fun e s => e - s)
      ((rows.scanl (fun acc r => acc + ((r.getD []).length : ℤ)) b).drop 1)
      ((rows.scanl (fun acc r => acc + ((r.getD []).length : ℤ)) b).take rows.length)
    = rows.map (fun r => (((r.getD []).length : ℤ))) := by
  induction rows generalizing b with
  | nil => simp
  | cons r rs ih =>
    have hh : ∃ t, List.scanl (fun acc r => acc + ((r.getD []).length : ℤ))
        (b + ((r.getD []).length : ℤ)) rs =
        (b + ((r.getD []).length : ℤ)) :: t := by
      cases rs with
      | nil => exact ⟨[], rfl⟩
      | cons a l => exact ⟨_, rfl⟩
    obtain ⟨t, ht⟩ := hh
    simp only [List.scanl_cons, List.drop_succ_cons, List.drop_zero, List.length_cons,
      List.take_succ_cons, ht]
    simp only [List.zipWith_cons_cons, add_sub_cancel_left, List.map_cons]
    have := ih (b + ((r.getD []).length : ℤ))
    rw [ht] at this
    simpa using this

theorem map_value_length_chunk_eq {α : Type} (rows : List (Option (List α))) :
    map_value_length_chunk rows = rows.map (Option.map (fun l => (l.length : ℤ))) := by
  simp only [map_value_length_chunk, mapOffsets]
  rw [scanl_sizes]
  by_cases h : 0 < nullCount rows
  · simp only [h, if_true]
    rw [List.zipWith_map_right, List.zipWith_same]
    apply List.map_congr_left
    intro r _
    cases r <;> simp
  · simp only [h, if_false]
    have hall : ∀ r ∈ rows, ¬ r.isNone := by
      have h0 : nullCount rows = 0 := Nat.eq_zero_of_not_pos h
      rw [nullCount, List.countP_eq_zero] at h0
      simpa using h0
    rw [List.map_map]
    apply List.map_congr_left
    intro r hr
    have := hall r hr
    cases r with
    | none => simp at this
    | some v => simp

theorem map_value_length_eq {α : Type} (chunks : List (List (Option (List α)))) :
    map_value_length chunks = chunks.flatten.map (Option.map (fun l => (l.length : ℤ))) := by
  unfold map_value_length
  rw [List.map_flatten]
  congr 1
  apply List.map_congr_left
  intro c _
  exact map_value_length_chunk_eq c

theorem ratTrunc_of_nonneg_of_lt_one (q : ℚ) (h0 : 0 ≤ q) (h1 : q < 1) : ratTrunc q = 0 := by
  apply Int.tdiv_eq_zero_of_lt
  · exact Rat.num_nonneg.mpr h0
  · exact_mod_cast Rat.lt_one_iff_num_lt_denom.mp h1

theorem flatRunEvents_no_warmup (enabled : List String) (rc : ℕ) :
    (flatRunEvents enabled rc).countP Event.isWarmup = 0 := by
  rw [List.countP_eq_zero]
  intro e he
  rw [flatRunEvents] at he
  simp only [List.mem_flatMap, List.mem_map, List.mem_range] at he
  obtain ⟨k, _, ri, _, rfl⟩ := he
  simp [Event.isWarmup]

theorem length_take_min (files : List FlatFile) :
    (files.take (min files.length 12)).length = min files.length 12 := by
  simp only [List.length_take]
  omega

theorem pcSum_map_getD {α β γ : Type} [AddCommMonoid γ] (g : α → Option β) (f : β → γ)
    (rows : List α) :
    (pcSum (rows.map (fun r => (g r).map f))).getD 0 = ((rows.filterMap g).map f).sum := by
  rw [pcSum_getD_zero, filterMap_id_map_optionMap]

theorem pcMax_map_getD {α β γ : Type} [LinearOrder γ] (g : α → Option β) (f : β → γ)
    (rows : List α) (d : γ) :
    (pcMax (rows.map (fun r => (g r).map f))).getD d = (((rows.filterMap g).map f).max?).getD d := by
  rw [pcMax_getD, filterMap_id_map_optionMap]

/-! ## Claims -/

/-- C2: for every map-valued column (any chunking), the per-row entry
counts `_map_value_length` derives from the offset representation
(start offset of row `i+1` minus start offset of row `i`, null rows skipped
as `none` rather than 0) coincide row-by-row — null rows included — with the
naive per-row counts obtained by iterating each row's entries directly;
consequently the skip-null sum and max reductions over the derived counts
equal those over the naive counts. -/
theorem C2_map_cardinality_via_offsets {α : Type} (chunks : List (List (Option (List α)))) :
    map_value_length chunks = chunks.flatten.map (Option.map (fun l => (l.length : ℤ))) ∧
    pcSum (map_value_length chunks)
      = pcSum (chunks.flatten.map (Option.map (fun l => (l.length : ℤ)))) ∧
    pcMax (map_value_length chunks)
      = pcMax (chunks.flatten.map (Option.map (fun l => (l.length : ℤ)))) := by
  refine ⟨map_value_length_eq chunks, ?_, ?_⟩ <;> rw [map_value_length_eq]

/-- C4: for all file lists `f1`, `f2`, the flat engine's result on
`f1 ++ f2` is the component-wise sum of its results on `f1` and `f2`.  In
this exact-rational model the equality is exact in all four components; in
particular it is exact for the integer field and the row count, and lies
within any floating-point tolerance for the two double fields. -/
theorem C4_flat_sum_concat_additive (f1 f2 : List FlatFile) (u : Bool) :
    sum_columns (f1 ++ f2) u = addFR (sum_columns f1 u) (sum_columns f2 u) := by
  rw [sum_columns_eq, sum_columns_eq, sum_columns_eq, deltaFold_append]

/-- C5: for every ordered file list the flat engine returns
`(sum_a, sum_b, sum_c, total_row_count)` where each column sum skips nulls
per-file and per-column (a null-only column yields `none` in `pcSum` and
contributes 0 rather than raising), and on the one-file dataset
`[(1, 2.0, 10.0), (2, 3.0, 15.0)]` it returns sums `(3, 5.0, 25.0)` with
row count 2. -/
theorem C5_flat_engine_contract :
    (∀ (files : List FlatFile) (u : Bool),
      sum_columns files u =
        ⟨(files.map (fun f =>
            (pcSum (f.map (fun row => row.passenger_count))).elim 0 ratTrunc)).sum,
         (files.map (fun f => (pcSum (f.map (fun row => row.trip_distance))).getD 0)).sum,
         (files.map (fun f => (pcSum (f.map (fun row => row.fare_amount))).getD 0)).sum,
         (files.map (fun f => f.length)).sum⟩) ∧
    sum_columns [scenarioFlatFile] false = ⟨3, 5, 25, 2⟩ := by
  constructor
  · intro files u
    rw [sum_columns_eq, deltaFold_components]
  · rw [sum_columns_eq, deltaFold_components]
    simp only [scenarioFlatFile, List.map_cons, List.map_nil, List.filterMap_cons, pcSum,
      List.sum_cons, List.sum_nil, id]
    norm_num [ratTrunc, FlatResult.mk.injEq]

/-- C9: the flat engine's integer aggregate is the sum, in file order, of
the per-file truncations (toward zero) of each file's `passenger_count`
column sum; on two files whose column sums are both 1/2 this yields 0,
whereas truncating the overall sum once yields 1. -/
theorem C9_per_file_truncation :
    (∀ (files : List FlatFile) (u : Bool),
      (sum_columns files u).passenger_count =
        (files.map (fun f =>
          (pcSum (f.map (fun row => row.passenger_count))).elim 0 ratTrunc)).sum) ∧
    (sum_columns halfFiles false).passenger_count = 0 ∧
    ratTrunc ((halfFiles.map (fun f =>
      (pcSum (f.map (fun row => row.passenger_count))).getD 0)).sum) = 1 := by
  have h12 : ratTrunc ((2 : ℚ)⁻¹) = 0 :=
    ratTrunc_of_nonneg_of_lt_one _ (by norm_num) (by norm_num)
  refine ⟨?_, ?_, ?_⟩
  · intro files u
    rw [sum_columns_eq, deltaFold_components]
  · rw [sum_columns_eq, deltaFold_components]
    simp [halfFiles, pcSum, h12]
  · have hsum : (halfFiles.map (fun f =>
        (pcSum (f.map (fun row => row.passenger_count))).getD 0)).sum = (1 : ℚ) := by
      simp [halfFiles, pcSum]
      norm_num
    rw [hsum]
    simp [ratTrunc]

/-- C6: when the requested contender names (after stripping/lowering,
and not the `"all"` shortcut) contain one that is not in the registry,
`parse_contenders` raises the configuration error, and both `main`s end in
the config-error outcome having performed zero reads, zero warmups and zero
runs — fail-fast before any file is touched. -/
theorem C6_unknown_contender_fails_fast (arg : String)
    (hall : pyLower (pyStrip arg) ≠ "all")
    (hbad : ∃ n ∈ requestedNames arg, !(contenderKeys.contains n)) :
    ∃ bad, parse_contenders (some arg) = .error ("Unknown contender: " ++ bad) ∧
      (!(contenderKeys.contains bad)) ∧
      (∀ (rc : ℕ) (files : List FlatFile) (dur : ℕ → ℕ → ℚ),
        mainFlat arg rc files dur =
          ⟨0, [], .configError ("Unknown contender: " ++ bad)⟩) ∧
      (∀ (rc : ℕ) (dataFile : Option NestedTable) (dur : ℕ → ℕ → ℚ),
        mainNested arg rc dataFile dur =
          ⟨0, [], .configError ("Unknown contender: " ++ bad)⟩) := by
  have hsome : ((requestedNames arg).find? (fun n => !(contenderKeys.contains n))).isSome := by
    rw [List.find?_isSome]
    exact hbad
  obtain ⟨bad, hb⟩ := Option.isSome_iff_exists.mp hsome
  have hpb := @List.find?_some String (fun n => !(contenderKeys.contains n)) bad
    (requestedNames arg) hb
  have hparse : parse_contenders (some arg) = .error ("Unknown contender: " ++ bad) := by
    simp only [parse_contenders]
    rw [if_neg hall, hb]
  refine ⟨bad, hparse, by simpa using hpb, ?_, ?_⟩
  · intro rc files dur
    simp [mainFlat, hparse]
  · intro rc dataFile dur
    simp [mainNested, hparse]

/-- Witness for C6 at the concrete argument `"bogus"`. -/
theorem C6_witness :
    ∃ bad, parse_contenders (some "bogus") = .error ("Unknown contender: " ++ bad) ∧
      (!(contenderKeys.contains bad)) ∧
      (∀ (rc : ℕ) (files : List FlatFile) (dur : ℕ → ℕ → ℚ),
        mainFlat "bogus" rc files dur =
          ⟨0, [], .configError ("Unknown contender: " ++ bad)⟩) ∧
      (∀ (rc : ℕ) (dataFile : Option NestedTable) (dur : ℕ → ℕ → ℚ),
        mainNested "bogus" rc dataFile dur =
          ⟨0, [], .configError ("Unknown contender: " ++ bad)⟩) :=
  C6_unknown_contender_fails_fast "bogus" (by decide) (by decide)

/-- C8: with validated contenders but missing input data (flat: empty
discovered file list; nested: absent fixture file), both `main`s print the
message and return cleanly before the warmup: zero reads, zero events
(no warmup, no run), and a normal (non-exceptional) missing-data outcome. -/
theorem C8_missing_data_clean_return (arg : String) (enabled : List String)
    (hok : parse_contenders (some arg) = .ok enabled) (rc : ℕ) (dur : ℕ → ℕ → ℚ) :
    mainFlat arg rc [] dur = ⟨0, [], .missingData⟩ ∧
    mainNested arg rc none dur = ⟨0, [], .missingData⟩ := by
  constructor
  · simp [mainFlat, hok]
  · simp [mainNested, hok]

/-- Witness for C8 at the concrete argument `"all"`. -/
theorem C8_witness :
    mainFlat "all" 5 [] (fun _ _ => 0) = ⟨0, [], .missingData⟩ ∧
    mainNested "all" 5 none (fun _ _ => 0) = ⟨0, [], .missingData⟩ :=
  C8_missing_data_clean_return "all" contenderKeys rfl 5 (fun _ _ => 0)

/-- C10: any `-c` argument that is not the `"all"` shortcut and contains
no non-blank comma-separated name (e.g. `","`) makes `parse_contenders`
return the empty selection without a validation error, after which both
`main`s (with data present) die with the unhandled `IndexError` from
`CONTENDERS[enabled[0]]` at the warmup instead of failing fast at
validation. -/
theorem C10_empty_selection_index_error (arg : String)
    (hall : pyLower (pyStrip arg) ≠ "all") (hempty : requestedNames arg = []) :
    parse_contenders (some arg) = .ok [] ∧
    ∀ (rc : ℕ) (files : List FlatFile) (tbl : NestedTable) (dur : ℕ → ℕ → ℚ),
      files ≠ [] →
      mainFlat arg rc files dur = ⟨0, [], .indexError⟩ ∧
      mainNested arg rc (some tbl) dur = ⟨0, [], .indexError⟩ := by
  have hparse : parse_contenders (some arg) = .ok [] := by
    simp [parse_contenders, hall, hempty]
  refine ⟨hparse, ?_⟩
  intro rc files tbl dur hf
  constructor
  · simp [mainFlat, hparse, hf]
  · simp [mainNested, hparse]

/-- Witness for C10 at the concrete argument `","` with one non-empty file. -/
theorem C10_witness :
    parse_contenders (some ",") = .ok [] ∧
    mainFlat "," 1 [[]] (fun _ _ => 0) = ⟨0, [], .indexError⟩ ∧
    mainNested "," 1 (some []) (fun _ _ => 0) = ⟨0, [], .indexError⟩ := by
  obtain ⟨h1, h2⟩ := C10_empty_selection_index_error "," (by decide) (by decide)
  obtain ⟨h3, h4⟩ := h2 1 [[]] [] (fun _ _ => 0) (by simp)
  exact ⟨h1, h3, h4⟩

/-- C3: every sum and max reduction of the nested engine over optional
per-row measures — the three list-cardinality aggregates, the map-cardinality
aggregate, and the string-length maximum — skips null rows (the reductions
range exactly over the non-null rows) and returns 0 when every contributing
value is null; in particular, on one row with a null `websites` list and one
row with a 3-entry `websites` list, `total_website_count = 3` and
`max_website_count = 3`. -/
theorem C3_nested_skip_null_defaults :
    (∀ (rows : List NestedRow) (u : Bool),
      (compute_aggregates rows u).total_website_count
          = ((rows.filterMap (fun r => r.websites)).map (fun l => (l.length : ℤ))).sum ∧
      (compute_aggregates rows u).max_website_count
          = (((rows.filterMap (fun r => r.websites)).map (fun l => (l.length : ℤ))).max?).getD 0 ∧
      (compute_aggregates rows u).total_source_count
          = ((rows.filterMap (fun r => r.sources)).map (fun l => (l.length : ℤ))).sum ∧
      (compute_aggregates rows u).max_source_count
          = (((rows.filterMap (fun r => r.sources)).map (fun l => (l.length : ℤ))).max?).getD 0 ∧
      (compute_aggregates rows u).total_address_count
          = ((rows.filterMap (fun r => r.addresses)).map (fun l => (l.length : ℤ))).sum ∧
      (compute_aggregates rows u).max_address_count
          = (((rows.filterMap (fun r => r.addresses)).map (fun l => (l.length : ℤ))).max?).getD 0 ∧
      (compute_aggregates rows u).total_name_entries
          = ((rows.filterMap (fun r => r.names.bind (fun s => s.common))).map
              (fun m => (m.length : ℤ))).sum ∧
      (compute_aggregates rows u).max_name_entries
          = (((rows.filterMap (fun r => r.names.bind (fun s => s.common))).map
              (fun m => (m.length : ℤ))).max?).getD 0 ∧
      (compute_aggregates rows u).max_primary_name_length
          = (((rows.filterMap (fun r => r.names.bind (fun s => s.primary))).map
              (fun s => (s.length : ℤ))).max?).getD 0) ∧
    (∀ (k : ℕ) (u : Bool),
      (compute_aggregates (List.replicate k nullNestedRow) u).total_website_count = 0 ∧
      (compute_aggregates (List.replicate k nullNestedRow) u).max_website_count = 0 ∧
      (compute_aggregates (List.replicate k nullNestedRow) u).total_source_count = 0 ∧
      (compute_aggregates (List.replicate k nullNestedRow) u).max_source_count = 0 ∧
      (compute_aggregates (List.replicate k nullNestedRow) u).total_address_count = 0 ∧
      (compute_aggregates (List.replicate k nullNestedRow) u).max_address_count = 0 ∧
      (compute_aggregates (List.replicate k nullNestedRow) u).total_name_entries = 0 ∧
      (compute_aggregates (List.replicate k nullNestedRow) u).max_name_entries = 0 ∧
      (compute_aggregates (List.replicate k nullNestedRow) u).max_primary_name_length = 0) ∧
    ((compute_aggregates websitesScenario false).total_website_count = 3 ∧
     (compute_aggregates websitesScenario false).max_website_count = 3) := by
  have hmain : ∀ (rows : List NestedRow) (u : Bool),
      (compute_aggregates rows u).total_website_count
          = ((rows.filterMap (fun r => r.websites)).map (fun l => (l.length : ℤ))).sum ∧
      (compute_aggregates rows u).max_website_count
          = (((rows.filterMap (fun r => r.websites)).map (fun l => (l.length : ℤ))).max?).getD 0 ∧
      (compute_aggregates rows u).total_source_count
          = ((rows.filterMap (fun r => r.sources)).map (fun l => (l.length : ℤ))).sum ∧
      (compute_aggregates rows u).max_source_count
          = (((rows.filterMap (fun r => r.sources)).map (fun l => (l.length : ℤ))).max?).getD 0 ∧
      (compute_aggregates rows u).total_address_count
          = ((rows.filterMap (fun r => r.addresses)).map (fun l => (l.length : ℤ))).sum ∧
      (compute_aggregates rows u).max_address_count
          = (((rows.filterMap (fun r => r.addresses)).map (fun l => (l.length : ℤ))).max?).getD 0 ∧
      (compute_aggregates rows u).total_name_entries
          = ((rows.filterMap (fun r => r.names.bind (fun s => s.common))).map
              (fun m => (m.length : ℤ))).sum ∧
      (compute_aggregates rows u).max_name_entries
          = (((rows.filterMap (fun r => r.names.bind (fun s => s.common))).map
              (fun m => (m.length : ℤ))).max?).getD 0 ∧
      (compute_aggregates rows u).max_primary_name_length
          = (((rows.filterMap (fun r => r.names.bind (fun s => s.primary))).map
              (fun s => (s.length : ℤ))).max?).getD 0 := by
    intro rows u
    simp only [compute_aggregates, read_table_nested, list_value_length, utf8_length,
      map_value_length_eq, List.flatten_cons, List.flatten_nil, List.append_nil,
      List.map_map, Function.comp_def]
    refine ⟨?_, ?_, ?_, ?_, ?_, ?_, ?_, ?_, ?_⟩ <;>
      first
        | rw [pcSum_getD_zero, filterMap_id_map_optionMap]
        | rw [pcMax_getD, filterMap_id_map_optionMap]
  refine ⟨hmain, ?_, ?_⟩
  · intro k u
    have h := hmain (List.replicate k nullNestedRow) u
    have hw : (List.replicate k nullNestedRow).filterMap (fun r => r.websites) = [] := by
      rw [List.filterMap_eq_nil_iff]
      intro a ha
      rw [List.eq_of_mem_replicate ha]
      rfl
    have hs : (List.replicate k nullNestedRow).filterMap (fun r => r.sources) = [] := by
      rw [List.filterMap_eq_nil_iff]
      intro a ha
      rw [List.eq_of_mem_replicate ha]
      rfl
    have ha : (List.replicate k nullNestedRow).filterMap (fun r => r.addresses) = [] := by
      rw [List.filterMap_eq_nil_iff]
      intro a ha
      rw [List.eq_of_mem_replicate ha]
      rfl
    have hc : (List.replicate k nullNestedRow).filterMap
        (fun r => r.names.bind (fun s => s.common)) = [] := by
      rw [List.filterMap_eq_nil_iff]
      intro a ha
      rw [List.eq_of_mem_replicate ha]
      rfl
    have hp : (List.replicate k nullNestedRow).filterMap
        (fun r => r.names.bind (fun s => s.primary)) = [] := by
      rw [List.filterMap_eq_nil_iff]
      intro a ha
      rw [List.eq_of_mem_replicate ha]
      rfl
    obtain ⟨e1, e2, e3, e4, e5, e6, e7, e8, e9⟩ := h
    rw [e1, e2, e3, e4, e5, e6, e7, e8, e9, hw, hs, ha, hc, hp]
    simp
  · have h := hmain websitesScenario false
    rw [h.1, h.2.1]
    simp [websitesScenario, nullNestedRow]

/-- C7: with a valid non-empty selection and present data, exactly one
warmup event precedes the timed runs, it carries the first selected
contender's parallelism flag and covers the first `min(len(files), 12)`
files (flat) resp. the full single file (nested, one read), and the warmup's
result and timing are discarded: the reported outcome (results, verification
table, average/min/max/spread statistics) of `main` equals that of `main`
with the warmup call removed, which performs no warmup event at all. -/
theorem C7_warmup_discarded (arg : String) (enabled : List String) (e0 : String)
    (rest : List String) (rc : ℕ) (files : List FlatFile) (tbl : NestedTable)
    (dur : ℕ → ℕ → ℚ)
    (hok : parse_contenders (some arg) = .ok enabled)
    (hcons : enabled = e0 :: rest) (hfiles : files ≠ []) :
    (mainFlat arg rc files dur).outcome = (mainFlatNoWarmup arg rc files dur).outcome ∧
    (mainFlat arg rc files dur).events
        = Event.warmupEv (contenderThreads e0) (min files.length 12)
            :: (mainFlatNoWarmup arg rc files dur).events ∧
    ((mainFlat arg rc files dur).events.countP Event.isWarmup) = 1 ∧
    ((mainFlatNoWarmup arg rc files dur).events.countP Event.isWarmup) = 0 ∧
    (mainFlat arg rc files dur).readCalls
        = min files.length 12 + (mainFlatNoWarmup arg rc files dur).readCalls ∧
    (mainNested arg rc (some tbl) dur).outcome
        = (mainNestedNoWarmup arg rc (some tbl) dur).outcome ∧
    (mainNested arg rc (some tbl) dur).events
        = Event.warmupEv (contenderThreads e0) 1
            :: (mainNestedNoWarmup arg rc (some tbl) dur).events ∧
    ((mainNested arg rc (some tbl) dur).events.countP Event.isWarmup) = 1 ∧
    ((mainNestedNoWarmup arg rc (some tbl) dur).events.countP Event.isWarmup) = 0 ∧
    (mainNested arg rc (some tbl) dur).readCalls
        = 1 + (mainNestedNoWarmup arg rc (some tbl) dur).readCalls := by
  subst hcons
  refine ⟨?_, ?_, ?_, ?_, ?_, ?_, ?_, ?_, ?_, ?_⟩ <;>
    simp [mainFlat, mainFlatNoWarmup, mainNested, mainNestedNoWarmup, hok, hfiles,
      sum_columnsR_eq, length_take_min, List.countP_cons, flatRunEvents_no_warmup,
      Event.isWarmup]

/-- Witness for C7: contenders `"all"`, one run, one non-empty flat file and
an empty nested fixture table. -/
theorem C7_witness :
    (mainFlat "all" 1 [[]] (fun _ _ => 0)).outcome
        = (mainFlatNoWarmup "all" 1 [[]] (fun _ _ => 0)).outcome ∧
    (mainFlat "all" 1 [[]] (fun _ _ => 0)).events
        = Event.warmupEv (contenderThreads "single_threaded") 1
            :: (mainFlatNoWarmup "all" 1 [[]] (fun _ _ => 0)).events ∧
    ((mainFlat "all" 1 [[]] (fun _ _ => 0)).events.countP Event.isWarmup) = 1 ∧
    ((mainFlatNoWarmup "all" 1 [[]] (fun _ _ => 0)).events.countP Event.isWarmup) = 0 ∧
    (mainFlat "all" 1 [[]] (fun _ _ => 0)).readCalls
        = 1 + (mainFlatNoWarmup "all" 1 [[]] (fun _ _ => 0)).readCalls ∧
    (mainNested "all" 1 (some []) (fun _ _ => 0)).outcome
        = (mainNestedNoWarmup "all" 1 (some []) (fun _ _ => 0)).outcome ∧
    (mainNested "all" 1 (some []) (fun _ _ => 0)).events
        = Event.warmupEv (contenderThreads "single_threaded") 1
            :: (mainNestedNoWarmup "all" 1 (some []) (fun _ _ => 0)).events ∧
    ((mainNested "all" 1 (some []) (fun _ _ => 0)).events.countP Event.isWarmup) = 1 ∧
    ((mainNestedNoWarmup "all" 1 (some []) (fun _ _ => 0)).events.countP Event.isWarmup) = 0 ∧
    (mainNested "all" 1 (some []) (fun _ _ => 0)).readCalls
        = 1 + (mainNestedNoWarmup "all" 1 (some []) (fun _ _ => 0)).readCalls :=
  C7_warmup_discarded "all" ["single_threaded", "multi_threaded"] "single_threaded"
    ["multi_threaded"] 1 [[]] [] (fun _ _ => 0) rfl rfl (by simp)

/-- Counterexample to C1: two sealed two-contender sessions — in the
first both contenders' first runs are field-by-field equal, in the second
the second contender's first-run `row_count` (an integer field) differs —
produce *identical* report data.  `print_results` therefore performs no
assertion and cannot report any mismatched field: the mismatching session is
indistinguishable from the matching one in everything the harness outputs. -/
theorem C1_counterexample :
    1 < sessNeqFlat.length ∧
    (⟨3, 5, 25, 2⟩ : FlatResult) ≠ ⟨3, 5, 25, 99⟩ ∧
    sessEqFlat ≠ sessNeqFlat ∧
    print_results sessEqFlat = print_results sessNeqFlat := by
  refine ⟨by decide, by decide, by decide, rfl⟩

theorem flatVerificationRows_forall2 (sess : List (String × List FlatRun))
    (rows : List (String × ℤ × ℚ × ℚ))
    (h : flatVerificationRows sess = some rows) :
    List.Forall₂ (fun (c : String × List FlatRun) (row : String × ℤ × ℚ × ℚ) =>
      ∃ r d rest, c.2 = (r, d) :: rest ∧
        row = (c.1, r.passenger_count, r.trip_distance, r.fare_amount)) sess rows := by
  induction sess generalizing rows with
  | nil =>
    simp only [flatVerificationRows, Option.some.injEq] at h
    subst h
    exact List.Forall₂.nil
  | cons c cs ih =>
    obtain ⟨key, runs⟩ := c
    cases runs with
    | nil => simp [flatVerificationRows] at h
    | cons rd rds =>
      obtain ⟨cr, d⟩ := rd
      cases htl : flatVerificationRows cs with
      | none => simp [flatVerificationRows, htl] at h
      | some tl =>
        simp only [flatVerificationRows, htl, Option.some.injEq] at h
        subst h
        exact List.Forall₂.cons ⟨cr, d, rds, rfl, rfl⟩ (ih tl htl)

theorem nestedVerificationRows_forall2 (sess : List (String × List NestedRun))
    (rows : List NestedVerifyRow)
    (h : nestedVerificationRows sess = some rows) :
    List.Forall₂ (fun (c : String × List NestedRun) (row : NestedVerifyRow) =>
      ∃ r d rest, c.2 = (r, d) :: rest ∧ row = nestedVerifyOf c.1 r) sess rows := by
  induction sess generalizing rows with
  | nil =>
    simp only [nestedVerificationRows, Option.some.injEq] at h
    subst h
    exact List.Forall₂.nil
  | cons c cs ih =>
    obtain ⟨key, runs⟩ := c
    cases runs with
    | nil => simp [nestedVerificationRows] at h
    | cons rd rds =>
      obtain ⟨cr, d⟩ := rd
      cases htl : nestedVerificationRows cs with
      | none => simp [nestedVerificationRows, htl] at h
      | some tl =>
        simp only [nestedVerificationRows, htl, Option.some.injEq] at h
        subst h
        exact List.Forall₂.cons ⟨cr, d, rds, rfl, rfl⟩ (ih tl htl)

theorem print_results_verification_spec (sess : List (String × List FlatRun)) (rep : FlatReport)
    (h : print_results sess = some rep) :
    (sess.length ≤ 1 → rep.verification = none) ∧
    (1 < sess.length → ∃ rows, flatVerificationRows sess = some rows ∧
        rep.verification = some rows) := by
  cases sess with
  | nil => simp [print_results] at h
  | cons c cs =>
    obtain ⟨key, runs⟩ := c
    cases runs with
    | nil => simp [print_results] at h
    | cons rd rds =>
      obtain ⟨r0, d0⟩ := rd
      cases cs with
      | nil =>
        cases hp : flatPerf [(key, (r0, d0) :: rds)] with
        | none => simp [print_results, hp] at h
        | some perf =>
          simp [print_results, hp, Option.some.injEq] at h
          subst h
          exact ⟨fun _ => rfl, fun hgt => absurd hgt (by simp)⟩
      | cons c2 cs2 =>
        cases hv : flatVerificationRows ((key, (r0, d0) :: rds) :: c2 :: cs2) with
        | none => simp [print_results, hv] at h
        | some v =>
          cases hp : flatPerf ((key, (r0, d0) :: rds) :: c2 :: cs2) with
          | none => simp [print_results, hv, hp] at h
          | some perf =>
            simp [print_results, hv, hp, Option.some.injEq] at h
            subst h
            exact ⟨fun hle => absurd hle (by simp), fun _ => ⟨v, rfl, rfl⟩⟩

theorem print_results_nested_verification_spec (sess : List (String × List NestedRun))
    (rep : NestedReport) (h : print_results_nested sess = some rep) :
    (sess.length ≤ 1 → rep.verification = none) ∧
    (1 < sess.length → ∃ rows, nestedVerificationRows sess = some rows ∧
        rep.verification = some rows) := by
  cases sess with
  | nil => simp [print_results_nested] at h
  | cons c cs =>
    obtain ⟨key, runs⟩ := c
    cases runs with
    | nil => simp [print_results_nested] at h
    | cons rd rds =>
      obtain ⟨r0, d0⟩ := rd
      cases cs with
      | nil =>
        cases hp : nestedPerf [(key, (r0, d0) :: rds)] with
        | none => simp [print_results_nested, hp] at h
        | some perf =>
          simp [print_results_nested, hp, Option.some.injEq] at h
          subst h
          exact ⟨fun _ => rfl, fun hgt => absurd hgt (by simp)⟩
      | cons c2 cs2 =>
        cases hv : nestedVerificationRows ((key, (r0, d0) :: rds) :: c2 :: cs2) with
        | none => simp [print_results_nested, hv] at h
        | some v =>
          cases hp : nestedPerf ((key, (r0, d0) :: rds) :: c2 :: cs2) with
          | none => simp [print_results_nested, hv, hp] at h
          | some perf =>
            simp [print_results_nested, hv, hp, Option.some.injEq] at h
            subst h
            exact ⟨fun hle => absurd hle (by simp), fun _ => ⟨v, rfl, rfl⟩⟩

/-- C1 (amended): whenever a `print_results` call completes on a sealed
session, its "Correctness Verification" section is skipped with at most one
contender, and with at least two contenders it consists of exactly one row
per contender holding that contender's FIRST run's displayed values (flat:
the three sums — `row_count` is not displayed; nested: six of the sixteen
fields).  The code prints these rows side by side for visual comparison
only: it contains no assertion and no mismatch detection or reporting. -/
theorem C1_amended_verification_table :
    (∀ (sess : List (String × List FlatRun)) (rep : FlatReport),
      print_results sess = some rep →
      (sess.length ≤ 1 → rep.verification = none) ∧
      (1 < sess.length → ∃ rows, rep.verification = some rows ∧
        List.Forall₂ (fun (c : String × List FlatRun) (row : String × ℤ × ℚ × ℚ) =>
          ∃ r d rest, c.2 = (r, d) :: rest ∧
            row = (c.1, r.passenger_count, r.trip_distance, r.fare_amount)) sess rows)) ∧
    (∀ (sess : List (String × List NestedRun)) (rep : NestedReport),
      print_results_nested sess = some rep →
      (sess.length ≤ 1 → rep.verification = none) ∧
      (1 < sess.length → ∃ rows, rep.verification = some rows ∧
        List.Forall₂ (fun (c : String × List NestedRun) (row : NestedVerifyRow) =>
          ∃ r d rest, c.2 = (r, d) :: rest ∧ row = nestedVerifyOf c.1 r) sess rows)) := by
  constructor
  · intro sess rep h
    obtain ⟨h1, h2⟩ := print_results_verification_spec sess rep h
    refine ⟨h1, fun hgt => ?_⟩
    obtain ⟨rows, hrows, hver⟩ := h2 hgt
    exact ⟨rows, hver, flatVerificationRows_forall2 sess rows hrows⟩
  · intro sess rep h
    obtain ⟨h1, h2⟩ := print_results_nested_verification_spec sess rep h
    refine ⟨h1, fun hgt => ?_⟩
    obtain ⟨rows, hrows, hver⟩ := h2 hgt
    exact ⟨rows, hver, nestedVerificationRows_forall2 sess rows hrows⟩

/-- Witness for the amended C1, applying it to concrete two-contender
sessions (flat and nested) whose reports evaluate concretely. -/
theorem C1_amended_witness :
    ((sessEqFlat.length ≤ 1 → repEqFlat.verification = none) ∧
     (1 < sessEqFlat.length → ∃ rows, repEqFlat.verification = some rows ∧
        List.Forall₂ (fun (c : String × List FlatRun) (row : String × ℤ × ℚ × ℚ) =>
          ∃ r d rest, c.2 = (r, d) :: rest ∧
            row = (c.1, r.passenger_count, r.trip_distance, r.fare_amount))
          sessEqFlat rows)) ∧
    ((sessEqNested.length ≤ 1 → repEqNested.verification = none) ∧
     (1 < sessEqNested.length → ∃ rows, repEqNested.verification = some rows ∧
        List.Forall₂ (fun (c : String × List NestedRun) (row : NestedVerifyRow) =>
          ∃ r d rest, c.2 = (r, d) :: rest ∧ row = nestedVerifyOf c.1 r)
          sessEqNested rows)) :=
  ⟨C1_amended_verification_table.1 sessEqFlat repEqFlat rfl,
   C1_amended_verification_table.2 sessEqNested repEqNested rfl⟩
